import Mathlib

/-!
Verification of the transposition-table core (tt.h) of this Stockfish fork:
the packed 128-bit `TTEntry` record with its dual upper/lower bound pairs,
the `save`/`update`/`set_generation` record operations, and the
`TranspositionTable` addressing (`first_entry`) and `refresh` operations.
Machine integers are embedded as `Nat`/`Int` with explicit wraparound
(`% 2^w`, two's-complement conversion for `int16_t`).
-/

/-- Two's-complement truncation to a signed 16-bit value: the meaning of the
C++ cast `(int16_t)x` applied to an `int`. -/
def toInt16 (x : Int) : Int :=
  (x + 32768) % 65536 - 32768

/-- `x` is representable as an `int16_t` without truncation. -/
def int16Range (x : Int) : Prop :=
  -32768 ≤ x ∧ x < 32768

instance (x : Int) : Decidable (int16Range x) := by
  unfold int16Range; infer_instance

/-- Bound flag `BOUND_NONE`. Modelled from the spec: `types.h` is not among
the sources; the spec fixes `boundFlags` as a bitmask of {UPPER, LOWER} with
both bits set ≡ EXACT, matching the bitwise use of `bound` in `TTEntry`. -/
def BOUND_NONE : Nat := 0

/-- Bound flag `BOUND_UPPER` (bit 0 of the bitmask). Modelled from the spec,
see `BOUND_NONE`. -/
def BOUND_UPPER : Nat := 1

/-- Bound flag `BOUND_LOWER` (bit 1 of the bitmask). Modelled from the spec,
see `BOUND_NONE`. -/
def BOUND_LOWER : Nat := 2

/-- Bound flag `BOUND_EXACT` = `BOUND_UPPER | BOUND_LOWER`. Modelled from the
spec, see `BOUND_NONE`. -/
def BOUND_EXACT : Nat := BOUND_UPPER ||| BOUND_LOWER

/-- Sentinel `VALUE_NONE`. Modelled from the spec: `types.h` is not among the
sources; the spec only requires a fixed sentinel "none" value, representable
in 16 bits. -/
def VALUE_NONE : Int := 30002

/-- Sentinel `DEPTH_NONE`. Modelled from the spec, see `VALUE_NONE`. -/
def DEPTH_NONE : Int := -254

/-- The transposition-table record (`class TTEntry`, 128 bits): 32-bit
fingerprint, 16-bit move, 8-bit bound bitmask, 8-bit generation stamp, and
two signed-16-bit (value, depth) pairs, one per bound direction. -/
@[ext]
structure TTEntry where
  key32 : Nat
  move16 : Nat
  bound : Nat
  generation8 : Nat
  valueLower : Int
  depthLower : Int
  valueUpper : Int
  depthUpper : Int
deriving Repr, DecidableEq

/-- The all-zero record produced by `TranspositionTable::clear()`
(`memset` to zero): fingerprint 0, bound `BOUND_NONE`, generation 0. -/
def TTEntry.zeroed : TTEntry :=
  ⟨0, 0, 0, 0, 0, 0, 0, 0⟩

instance : Inhabited TTEntry := ⟨TTEntry.zeroed⟩

/-- `TTEntry::save(k, v, b, d, m, g)`: unconditionally assigns every field.
Each (value, depth) pair is set to the truncated `(v, d)` when its bound bit
is present in `b`, and to the sentinels otherwise. -/
def TTEntry.save (k : Nat) (v : Int) (b : Nat) (d : Int) (m : Nat) (g : Nat) :
    TTEntry where
  key32 := k % 2 ^ 32
  move16 := m % 2 ^ 16
  bound := b % 2 ^ 8
  generation8 := g % 2 ^ 8
  valueUpper := toInt16 (if b &&& BOUND_UPPER ≠ 0 then v else VALUE_NONE)
  depthUpper := toInt16 (if b &&& BOUND_UPPER ≠ 0 then d else DEPTH_NONE)
  valueLower := toInt16 (if b &&& BOUND_LOWER ≠ 0 then v else VALUE_NONE)
  depthLower := toInt16 (if b &&& BOUND_LOWER ≠ 0 then d else DEPTH_NONE)

/-- `TTEntry::update(v, b, d, m, g)`: merge new bound information into a
record for the same position. Translated statement-by-statement from the
source: overwrite move and generation; drop an EXACT flag to
`UPPER | LOWER`; for each direction present in `b`, overwrite that pair and,
when the opposite bit is set and the raw `v` contradicts the stored opposite
value, clear the opposite bit and reset its pair to the sentinels; finally
`bound |= b`. -/
def TTEntry.update (e : TTEntry) (v : Int) (b : Nat) (d : Int) (m : Nat)
    (g : Nat) : TTEntry :=
  let e1 : TTEntry := { e with move16 := m % 2 ^ 16, generation8 := g % 2 ^ 8 }
  let e2 : TTEntry :=
    if e1.bound = BOUND_EXACT then
      { e1 with bound := BOUND_UPPER ||| BOUND_LOWER }
    else e1
  let e3 : TTEntry :=
    if b &&& BOUND_UPPER ≠ 0 then
      let eU : TTEntry := { e2 with valueUpper := toInt16 v, depthUpper := toInt16 d }
      if eU.bound &&& BOUND_LOWER ≠ 0 ∧ v < eU.valueLower then
        { eU with
          bound := eU.bound ^^^ BOUND_LOWER
          valueLower := toInt16 VALUE_NONE
          depthLower := toInt16 DEPTH_NONE }
      else eU
    else e2
  let e4 : TTEntry :=
    if b &&& BOUND_LOWER ≠ 0 then
      let eL : TTEntry := { e3 with valueLower := toInt16 v, depthLower := toInt16 d }
      if eL.bound &&& BOUND_UPPER ≠ 0 ∧ v > eL.valueUpper then
        { eL with
          bound := eL.bound ^^^ BOUND_UPPER
          valueUpper := toInt16 VALUE_NONE
          depthUpper := toInt16 DEPTH_NONE }
      else eL
    else e3
  { e4 with bound := e4.bound ||| b % 2 ^ 8 }

/-- `TTEntry::set_generation(g)`: assigns only the 8-bit generation stamp. -/
def TTEntry.set_generation (e : TTEntry) (g : Nat) : TTEntry :=
  { e with generation8 := g % 2 ^ 8 }

/-- The table state relevant to the header-inline members: the power-of-two
cluster count `size` and the shared 8-bit `generation` counter. -/
structure TranspositionTable where
  size : Nat
  generation : Nat

/-- `TranspositionTable::first_entry(posKey)`: index of the addressed
cluster — the key truncated to `uint32_t`, masked with `size - 1`. -/
def TranspositionTable.first_entry_index (t : TranspositionTable)
    (posKey : Nat) : Nat :=
  posKey % 2 ^ 32 &&& (t.size - 1)

/-- `TranspositionTable::refresh(tte)`: stamps the record with the table's
current generation via `set_generation`. -/
def TranspositionTable.refresh (t : TranspositionTable) (e : TTEntry) :
    TTEntry :=
  e.set_generation t.generation

/-- Modelled from the spec: distance of a record's generation stamp `g` from
the current epoch `cur`, modulo the 8-bit wraparound; the aging measure used
by eviction scoring (the scoring lives in `tt.cpp`, absent from the
sources). -/
def genDistance (cur g : Nat) : Nat :=
  (cur % 2 ^ 8 + 2 ^ 8 - g % 2 ^ 8) % 2 ^ 8

/-- Modelled from the spec: the eviction score of a record, ordered
lexicographically — generation distance dominates (older ⇒ more evictable),
then shallower stored depth ⇒ more evictable (ties broken by lowest
depth). -/
def evictScore (cur : Nat) (e : TTEntry) : Lex (Nat × Int) :=
  toLex (genDistance cur e.generation8, -e.depthLower)

/-- Modelled from the spec: index of the eviction victim in a full cluster —
the record with the (lexicographically) highest eviction score. -/
def victimIdx (cur : Nat) (cluster : List TTEntry) : Nat :=
  ((List.range cluster.length).argmax
    (fun i => evictScore cur (cluster.getD i TTEntry.zeroed))).getD 0

/-- Modelled from the spec: `TranspositionTable::store` on the addressed
cluster — its definition (`tt.cpp`) is absent from the sources, only the
declaration is in the header. Following the spec: a record whose fingerprint
matches the key's low 32 bits is merged in place via `update`; otherwise a
never-used record (zero fingerprint) is initialized via `save`; otherwise
the victim with the highest eviction score is overwritten via `save`. -/
def storeCluster (cur : Nat) (cluster : List TTEntry) (posKey : Nat)
    (v : Int) (b : Nat) (d : Int) (m : Nat) : List TTEntry :=
  let k32 := posKey % 2 ^ 32
  match cluster.findIdx? (fun e => e.key32 == k32) with
  | some i => cluster.set i ((cluster.getD i TTEntry.zeroed).update v b d m cur)
  | none =>
    match cluster.findIdx? (fun e => e.key32 == 0) with
    | some i => cluster.set i (TTEntry.save k32 v b d m cur)
    | none => cluster.set (victimIdx cur cluster) (TTEntry.save k32 v b d m cur)

/-! ## Helper lemmas -/

theorem toInt16_eq_self {x : Int} (h : int16Range x) : toInt16 x = x := by
  obtain ⟨h1, h2⟩ := h
  unfold toInt16
  omega

@[simp]
theorem toInt16_value_none : toInt16 VALUE_NONE = VALUE_NONE := by decide

@[simp]
theorem toInt16_depth_none : toInt16 DEPTH_NONE = DEPTH_NONE := by decide

theorem or_and_self_nat (x y : Nat) : (x ||| y) &&& y = y := by
  apply Nat.eq_of_testBit_eq
  intro i
  simp only [Nat.testBit_and, Nat.testBit_or]
  cases x.testBit i <;> cases y.testBit i <;> rfl

/-! ## C2: the initialize-then-merge scenario -/

/-- C2 (counterexample): the spec's scenario is false on the code. After
`save(0x1234, 50, LOWER, 10, M1, 1)` followed by
`update(30, UPPER, 8, M2, 2)`, the stored lower value 50 exceeds the new
upper value 30, so `update` invalidates the LOWER pair: the result does not
keep both bound bits with `valueLower = 50`, `depthLower = 10`. -/
theorem c2_scenario_counterexample :
    ¬ ((((TTEntry.save 0x1234 50 BOUND_LOWER 10 100 1).update
          30 BOUND_UPPER 8 200 2).bound = BOUND_EXACT) ∧
       (((TTEntry.save 0x1234 50 BOUND_LOWER 10 100 1).update
          30 BOUND_UPPER 8 200 2).valueLower = 50) ∧
       (((TTEntry.save 0x1234 50 BOUND_LOWER 10 100 1).update
          30 BOUND_UPPER 8 200 2).depthLower = 10)) := by
  decide

/-- C2 (amended): `save(0x1234, 50, LOWER, 10, M1=100, gen=1)` followed by
`update(30, UPPER, 8, M2=200, gen=2)` yields a record with only the UPPER
bit set — the stored lower value 50 strictly exceeds the new upper value 30,
so the LOWER pair is invalidated and reset to the sentinels — with
`valueUpper = 30`, `depthUpper = 8`, `move = M2`, `generation = 2`. -/
theorem c2_scenario_amended :
    (((TTEntry.save 0x1234 50 BOUND_LOWER 10 100 1).update
        30 BOUND_UPPER 8 200 2).bound = BOUND_UPPER) ∧
    (((TTEntry.save 0x1234 50 BOUND_LOWER 10 100 1).update
        30 BOUND_UPPER 8 200 2).valueUpper = 30) ∧
    (((TTEntry.save 0x1234 50 BOUND_LOWER 10 100 1).update
        30 BOUND_UPPER 8 200 2).depthUpper = 8) ∧
    (((TTEntry.save 0x1234 50 BOUND_LOWER 10 100 1).update
        30 BOUND_UPPER 8 200 2).valueLower = VALUE_NONE) ∧
    (((TTEntry.save 0x1234 50 BOUND_LOWER 10 100 1).update
        30 BOUND_UPPER 8 200 2).depthLower = DEPTH_NONE) ∧
    (((TTEntry.save 0x1234 50 BOUND_LOWER 10 100 1).update
        30 BOUND_UPPER 8 200 2).move16 = 200) ∧
    (((TTEntry.save 0x1234 50 BOUND_LOWER 10 100 1).update
        30 BOUND_UPPER 8 200 2).generation8 = 2) ∧
    (((TTEntry.save 0x1234 50 BOUND_LOWER 10 100 1).update
        30 BOUND_UPPER 8 200 2).key32 = 0x1234) := by
  decide

/-! ## C9: merge with BOUND_NONE is a pure move/generation refresh -/

/-- C9: `update` with `b = BOUND_NONE` changes only the move and generation
fields; the bound bitmask, all four value/depth fields and the fingerprint
are left exactly as they were. -/
theorem c9_update_none_frame (e : TTEntry) (v d : Int) (m g : Nat) :
    e.update v BOUND_NONE d m g =
      { e with move16 := m % 2 ^ 16, generation8 := g % 2 ^ 8 } := by
  unfold TTEntry.update
  simp only [BOUND_NONE, BOUND_UPPER, BOUND_LOWER, BOUND_EXACT]
  norm_num
  split
  next h => simp [h]
  next => simp

/-! ## C10: addressing uses only the low 32 bits of the key -/

/-- C10: for every table and every two keys congruent modulo `2^32`,
`first_entry` addresses the same cluster: the index depends on the key only
through its low 32 bits (`(uint32_t)posKey`). -/
theorem c10_first_entry_low32 (t : TranspositionTable) (k1 k2 : Nat)
    (h : k1 % 2 ^ 32 = k2 % 2 ^ 32) :
    t.first_entry_index k1 = t.first_entry_index k2 := by
  unfold TranspositionTable.first_entry_index
  rw [h]

/-- Witness for C10 at concrete inputs: keys `2^32 + 5` and `5` agree in
their low 32 bits and are mapped to the same cluster of a table with `2^40`
clusters. -/
theorem c10_first_entry_low32_witness :
    (2 ^ 32 + 5) % 2 ^ 32 = (5 : Nat) % 2 ^ 32 ∧
    TranspositionTable.first_entry_index ⟨2 ^ 40, 0⟩ (2 ^ 32 + 5) =
      TranspositionTable.first_entry_index ⟨2 ^ 40, 0⟩ 5 :=
  ⟨by decide, c10_first_entry_low32 ⟨2 ^ 40, 0⟩ (2 ^ 32 + 5) 5 (by decide)⟩

/-! ## C7: pure, deterministic power-of-two addressing -/

/-- C7 (counterexample): the claim's index formula — the full key masked
against `clusterCount - 1` — is false of the code once the cluster count
exceeds `2^32`: `first_entry` masks `(uint32_t)posKey`, so at size `2^40`
the key `2^33` is addressed to cluster 0, while the claimed formula gives
`2^33 &&& (2^40 - 1) = 2^33`. -/
theorem c7_first_entry_counterexample :
    TranspositionTable.first_entry_index ⟨2 ^ 40, 0⟩ (2 ^ 33) ≠
      2 ^ 33 &&& (2 ^ 40 - 1) := by
  decide

/-- C7 (amended): for a table whose cluster count is a power of two `2^n`,
`first_entry` maps every key to the key's low 32 bits (`(uint32_t)posKey`)
masked against `size - 1`, i.e. `(key mod 2^32) mod size` — which equals
`key mod size` whenever `n ≤ 32`; the mapping is referentially transparent —
equal keys give equal clusters — and depends only on the key and the size,
not on the table's generation. -/
theorem c7_first_entry_pure_amended (t : TranspositionTable) (n : Nat)
    (hs : t.size = 2 ^ n) (k : Nat) :
    t.first_entry_index k = k % 2 ^ 32 % t.size ∧
    (n ≤ 32 → t.first_entry_index k = k % t.size) ∧
    (∀ k2, k2 = k → t.first_entry_index k2 = t.first_entry_index k) ∧
    (∀ t2 : TranspositionTable, t2.size = t.size →
      t2.first_entry_index k = t.first_entry_index k) := by
  refine ⟨?_, ?_, ?_, ?_⟩
  · unfold TranspositionTable.first_entry_index
    rw [hs, Nat.and_pow_two_sub_one_eq_mod]
  · intro hn
    unfold TranspositionTable.first_entry_index
    rw [hs, Nat.and_pow_two_sub_one_eq_mod,
      Nat.mod_mod_of_dvd k (pow_dvd_pow 2 hn)]
  · intro k2 h
    rw [h]
  · intro t2 h2
    unfold TranspositionTable.first_entry_index
    rw [h2]

/-- Witness for C7 (amended): a table of `2^20` clusters (generation 3)
addressed with the 34-bit key `2^33 + 7`, exercising the `uint32_t`
truncation. -/
theorem c7_first_entry_pure_amended_witness :
    (TranspositionTable.mk (2 ^ 20) 3).size = 2 ^ 20 ∧
    ((TranspositionTable.mk (2 ^ 20) 3).first_entry_index (2 ^ 33 + 7) =
        (2 ^ 33 + 7) % 2 ^ 32 % (TranspositionTable.mk (2 ^ 20) 3).size ∧
      (20 ≤ 32 → (TranspositionTable.mk (2 ^ 20) 3).first_entry_index (2 ^ 33 + 7) =
        (2 ^ 33 + 7) % (TranspositionTable.mk (2 ^ 20) 3).size) ∧
      (∀ k2, k2 = 2 ^ 33 + 7 →
        (TranspositionTable.mk (2 ^ 20) 3).first_entry_index k2 =
          (TranspositionTable.mk (2 ^ 20) 3).first_entry_index (2 ^ 33 + 7)) ∧
      (∀ t2 : TranspositionTable, t2.size = (TranspositionTable.mk (2 ^ 20) 3).size →
        t2.first_entry_index (2 ^ 33 + 7) =
          (TranspositionTable.mk (2 ^ 20) 3).first_entry_index (2 ^ 33 + 7))) :=
  ⟨rfl, c7_first_entry_pure_amended (TranspositionTable.mk (2 ^ 20) 3) 20 rfl
    (2 ^ 33 + 7)⟩

/-! ## C6: generation refresh is a pure frame update -/

/-- C6: `set_generation g` sets only the 8-bit generation stamp to `g`,
leaving fingerprint, move, bound bitmask and all four value/depth fields
unchanged; `refresh` stamps the table's current generation, after which the
record's generation distance from the current epoch is 0. -/
theorem c6_set_generation_frame (e : TTEntry) (g : Nat) (hg : g < 2 ^ 8) :
    (e.set_generation g).generation8 = g ∧
    (e.set_generation g).key32 = e.key32 ∧
    (e.set_generation g).move16 = e.move16 ∧
    (e.set_generation g).bound = e.bound ∧
    (e.set_generation g).valueUpper = e.valueUpper ∧
    (e.set_generation g).depthUpper = e.depthUpper ∧
    (e.set_generation g).valueLower = e.valueLower ∧
    (e.set_generation g).depthLower = e.depthLower ∧
    genDistance g (e.set_generation g).generation8 = 0 ∧
    (∀ t : TranspositionTable, t.generation = g →
      (t.refresh e).generation8 = g ∧
      genDistance t.generation ((t.refresh e).generation8) = 0) := by
  have hmod : g % 2 ^ 8 = g := Nat.mod_eq_of_lt hg
  refine ⟨?_, rfl, rfl, rfl, rfl, rfl, rfl, rfl, ?_, ?_⟩
  · simp [TTEntry.set_generation, hmod] <;> omega
  · simp [TTEntry.set_generation, genDistance, hmod] <;> omega
  · intro t ht
    constructor
    · simp [TranspositionTable.refresh, TTEntry.set_generation, ht, hmod] <;>
        omega
    · simp [TranspositionTable.refresh, TTEntry.set_generation, genDistance,
        ht, hmod] <;> omega

/-- Witness for C6 at a concrete record and generation. -/
theorem c6_set_generation_frame_witness :
    (7 : Nat) < 2 ^ 8 ∧
    (((TTEntry.mk 1 2 3 4 5 6 7 8).set_generation 7).generation8 = 7 ∧
     ((TTEntry.mk 1 2 3 4 5 6 7 8).set_generation 7).key32 = (TTEntry.mk 1 2 3 4 5 6 7 8).key32 ∧
     ((TTEntry.mk 1 2 3 4 5 6 7 8).set_generation 7).move16 = (TTEntry.mk 1 2 3 4 5 6 7 8).move16 ∧
     ((TTEntry.mk 1 2 3 4 5 6 7 8).set_generation 7).bound = (TTEntry.mk 1 2 3 4 5 6 7 8).bound ∧
     ((TTEntry.mk 1 2 3 4 5 6 7 8).set_generation 7).valueUpper = (TTEntry.mk 1 2 3 4 5 6 7 8).valueUpper ∧
     ((TTEntry.mk 1 2 3 4 5 6 7 8).set_generation 7).depthUpper = (TTEntry.mk 1 2 3 4 5 6 7 8).depthUpper ∧
     ((TTEntry.mk 1 2 3 4 5 6 7 8).set_generation 7).valueLower = (TTEntry.mk 1 2 3 4 5 6 7 8).valueLower ∧
     ((TTEntry.mk 1 2 3 4 5 6 7 8).set_generation 7).depthLower = (TTEntry.mk 1 2 3 4 5 6 7 8).depthLower ∧
     genDistance 7 (((TTEntry.mk 1 2 3 4 5 6 7 8)).set_generation 7).generation8 = 0 ∧
     (∀ t : TranspositionTable, t.generation = 7 →
       (t.refresh (TTEntry.mk 1 2 3 4 5 6 7 8)).generation8 = 7 ∧
       genDistance t.generation ((t.refresh (TTEntry.mk 1 2 3 4 5 6 7 8)).generation8) = 0)) :=
  ⟨by decide, c6_set_generation_frame (TTEntry.mk 1 2 3 4 5 6 7 8) 7 (by decide)⟩

/-! ## C4: initialize overwrites unconditionally -/

/-- C4: `save` sets fingerprint, move and generation to its arguments, sets
the bound bitmask exactly to `b`, sets each value/depth pair whose bit is
present in `b` to `(v, d)` and each absent pair to the sentinels; in
particular `b = BOUND_EXACT` leaves both bits set and both pairs `(v, d)`.
Because `save` assigns every field, the result is independent of any prior
record content. -/
theorem c4_save_overwrites (k : Nat) (v : Int) (b : Nat) (d : Int)
    (m g : Nat) (hk : k < 2 ^ 32) (hv : int16Range v) (hd : int16Range d)
    (hm : m < 2 ^ 16) (hb : b < 2 ^ 8) (hg : g < 2 ^ 8) :
    (TTEntry.save k v b d m g).key32 = k ∧
    (TTEntry.save k v b d m g).move16 = m ∧
    (TTEntry.save k v b d m g).generation8 = g ∧
    (TTEntry.save k v b d m g).bound = b ∧
    (b &&& BOUND_UPPER ≠ 0 →
      (TTEntry.save k v b d m g).valueUpper = v ∧
      (TTEntry.save k v b d m g).depthUpper = d) ∧
    (b &&& BOUND_UPPER = 0 →
      (TTEntry.save k v b d m g).valueUpper = VALUE_NONE ∧
      (TTEntry.save k v b d m g).depthUpper = DEPTH_NONE) ∧
    (b &&& BOUND_LOWER ≠ 0 →
      (TTEntry.save k v b d m g).valueLower = v ∧
      (TTEntry.save k v b d m g).depthLower = d) ∧
    (b &&& BOUND_LOWER = 0 →
      (TTEntry.save k v b d m g).valueLower = VALUE_NONE ∧
      (TTEntry.save k v b d m g).depthLower = DEPTH_NONE) ∧
    (b = BOUND_EXACT →
      (TTEntry.save k v b d m g).bound &&& BOUND_UPPER ≠ 0 ∧
      (TTEntry.save k v b d m g).bound &&& BOUND_LOWER ≠ 0 ∧
      (TTEntry.save k v b d m g).valueUpper = v ∧
      (TTEntry.save k v b d m g).depthUpper = d ∧
      (TTEntry.save k v b d m g).valueLower = v ∧
      (TTEntry.save k v b d m g).depthLower = d) := by
  have hv16 := toInt16_eq_self hv
  have hd16 := toInt16_eq_self hd
  unfold TTEntry.save
  refine ⟨Nat.mod_eq_of_lt hk, Nat.mod_eq_of_lt hm, Nat.mod_eq_of_lt hg,
    Nat.mod_eq_of_lt hb, ?_, ?_, ?_, ?_, ?_⟩
  · intro h; simp [h, hv16, hd16]
  · intro h; simp [h]
  · intro h; simp [h, hv16, hd16]
  · intro h; simp [h]
  · intro h
    subst h
    refine ⟨?_, ?_, ?_, ?_, ?_, ?_⟩ <;>
      simp [BOUND_EXACT, BOUND_UPPER, BOUND_LOWER, Nat.mod_eq_of_lt, hv16, hd16]

/-- Witness for C4: `save(0xabcd, 123, EXACT, 17, 42, 9)`. -/
theorem c4_save_overwrites_witness :
    (0xabcd : Nat) < 2 ^ 32 ∧ int16Range 123 ∧ int16Range 17 ∧
    (42 : Nat) < 2 ^ 16 ∧ BOUND_EXACT < 2 ^ 8 ∧ (9 : Nat) < 2 ^ 8 ∧
    ((TTEntry.save 0xabcd 123 BOUND_EXACT 17 42 9).key32 = 0xabcd ∧
     (TTEntry.save 0xabcd 123 BOUND_EXACT 17 42 9).move16 = 42 ∧
     (TTEntry.save 0xabcd 123 BOUND_EXACT 17 42 9).generation8 = 9 ∧
     (TTEntry.save 0xabcd 123 BOUND_EXACT 17 42 9).bound = BOUND_EXACT ∧
     (BOUND_EXACT &&& BOUND_UPPER ≠ 0 →
       (TTEntry.save 0xabcd 123 BOUND_EXACT 17 42 9).valueUpper = 123 ∧
       (TTEntry.save 0xabcd 123 BOUND_EXACT 17 42 9).depthUpper = 17) ∧
     (BOUND_EXACT &&& BOUND_UPPER = 0 →
       (TTEntry.save 0xabcd 123 BOUND_EXACT 17 42 9).valueUpper = VALUE_NONE ∧
       (TTEntry.save 0xabcd 123 BOUND_EXACT 17 42 9).depthUpper = DEPTH_NONE) ∧
     (BOUND_EXACT &&& BOUND_LOWER ≠ 0 →
       (TTEntry.save 0xabcd 123 BOUND_EXACT 17 42 9).valueLower = 123 ∧
       (TTEntry.save 0xabcd 123 BOUND_EXACT 17 42 9).depthLower = 17) ∧
     (BOUND_EXACT &&& BOUND_LOWER = 0 →
       (TTEntry.save 0xabcd 123 BOUND_EXACT 17 42 9).valueLower = VALUE_NONE ∧
       (TTEntry.save 0xabcd 123 BOUND_EXACT 17 42 9).depthLower = DEPTH_NONE) ∧
     (BOUND_EXACT = BOUND_EXACT →
       (TTEntry.save 0xabcd 123 BOUND_EXACT 17 42 9).bound &&& BOUND_UPPER ≠ 0 ∧
       (TTEntry.save 0xabcd 123 BOUND_EXACT 17 42 9).bound &&& BOUND_LOWER ≠ 0 ∧
       (TTEntry.save 0xabcd 123 BOUND_EXACT 17 42 9).valueUpper = 123 ∧
       (TTEntry.save 0xabcd 123 BOUND_EXACT 17 42 9).depthUpper = 17 ∧
       (TTEntry.save 0xabcd 123 BOUND_EXACT 17 42 9).valueLower = 123 ∧
       (TTEntry.save 0xabcd 123 BOUND_EXACT 17 42 9).depthLower = 17)) :=
  ⟨by decide, by decide, by decide, by decide, by decide, by decide,
    c4_save_overwrites 0xabcd 123 BOUND_EXACT 17 42 9 (by decide) (by decide)
      (by decide) (by decide) (by decide) (by decide)⟩

/-! ## C5: merge always overwrites move/generation, bound bits accumulate -/

/-- C5: after any `update`, the record's move equals the move argument and
its generation equals the generation argument (most recent wins), and the
final `bound |= b` guarantees the bound bitmask includes every bit of the
`b` being stored. -/
theorem c5_update_move_gen_bound (e : TTEntry) (v : Int) (b : Nat) (d : Int)
    (m g : Nat) (hm : m < 2 ^ 16) (hg : g < 2 ^ 8) (hb : b < 2 ^ 8) :
    (e.update v b d m g).move16 = m ∧
    (e.update v b d m g).generation8 = g ∧
    (e.update v b d m g).bound &&& b = b := by
  have hm2 : m % 65536 = m := Nat.mod_eq_of_lt (by omega)
  have hg2 : g % 256 = g := Nat.mod_eq_of_lt (by omega)
  have hb2 : b % 256 = b := Nat.mod_eq_of_lt (by omega)
  simp only [TTEntry.update]
  split_ifs <;> simp [hm2, hg2, hb2, or_and_self_nat]

/-- Witness for C5: merge with `LOWER` into a record currently holding
`UPPER`. -/
theorem c5_update_move_gen_bound_witness :
    (77 : Nat) < 2 ^ 16 ∧ (5 : Nat) < 2 ^ 8 ∧ BOUND_LOWER < 2 ^ 8 ∧
    (((TTEntry.mk 9 1 BOUND_UPPER 0 0 0 40 6).update 90 BOUND_LOWER 12 77 5).move16 = 77 ∧
     ((TTEntry.mk 9 1 BOUND_UPPER 0 0 0 40 6).update 90 BOUND_LOWER 12 77 5).generation8 = 5 ∧
     ((TTEntry.mk 9 1 BOUND_UPPER 0 0 0 40 6).update 90 BOUND_LOWER 12 77 5).bound &&& BOUND_LOWER = BOUND_LOWER) :=
  ⟨by decide, by decide, by decide,
    c5_update_move_gen_bound (TTEntry.mk 9 1 BOUND_UPPER 0 0 0 40 6) 90
      BOUND_LOWER 12 77 5 (by decide) (by decide) (by decide)⟩

/-! ## C1: merge overwrite and cross-bound invalidation -/

theorem update_sets_upper_pair (e : TTEntry) (v d : Int) (b m g : Nat)
    (hv : int16Range v) (hd : int16Range d) (hb : b &&& BOUND_UPPER ≠ 0) :
    (e.update v b d m g).valueUpper = v ∧
    (e.update v b d m g).depthUpper = d := by
  have hv16 := toInt16_eq_self hv
  have hd16 := toInt16_eq_self hd
  simp only [TTEntry.update]
  split_ifs <;> simp_all <;> omega

theorem update_sets_lower_pair (e : TTEntry) (v d : Int) (b m g : Nat)
    (hv : int16Range v) (hd : int16Range d) (hb : b &&& BOUND_LOWER ≠ 0) :
    (e.update v b d m g).valueLower = v ∧
    (e.update v b d m g).depthLower = d := by
  have hv16 := toInt16_eq_self hv
  have hd16 := toInt16_eq_self hd
  simp only [TTEntry.update]
  split_ifs <;> simp_all <;> omega

theorem update_upper_invalidates_lower (e : TTEntry) (v d : Int) (m g : Nat)
    (hbound : e.bound < 4) :
    (e.bound &&& BOUND_LOWER ≠ 0 ∧ v < e.valueLower →
      (e.update v BOUND_UPPER d m g).bound &&& BOUND_LOWER = 0 ∧
      (e.update v BOUND_UPPER d m g).valueLower = VALUE_NONE ∧
      (e.update v BOUND_UPPER d m g).depthLower = DEPTH_NONE) ∧
    (¬ (e.bound &&& BOUND_LOWER ≠ 0 ∧ v < e.valueLower) →
      (e.update v BOUND_UPPER d m g).bound &&& BOUND_LOWER = e.bound &&& BOUND_LOWER ∧
      (e.update v BOUND_UPPER d m g).valueLower = e.valueLower ∧
      (e.update v BOUND_UPPER d m g).depthLower = e.depthLower) := by
  obtain ⟨k32, m16, bd, g8, vl, dl, vu, du⟩ := e
  simp only at hbound
  rcases lt_or_le v vl with hvl | hvl
  · interval_cases bd <;>
      simp [TTEntry.update, BOUND_UPPER, BOUND_LOWER, BOUND_EXACT,
        BOUND_NONE, hvl] <;> decide
  · interval_cases bd <;>
      simp [TTEntry.update, BOUND_UPPER, BOUND_LOWER, BOUND_EXACT,
        BOUND_NONE, not_lt.mpr hvl] <;> decide

theorem update_lower_invalidates_upper (e : TTEntry) (v d : Int) (m g : Nat)
    (hbound : e.bound < 4) :
    (e.bound &&& BOUND_UPPER ≠ 0 ∧ v > e.valueUpper →
      (e.update v BOUND_LOWER d m g).bound &&& BOUND_UPPER = 0 ∧
      (e.update v BOUND_LOWER d m g).valueUpper = VALUE_NONE ∧
      (e.update v BOUND_LOWER d m g).depthUpper = DEPTH_NONE) ∧
    (¬ (e.bound &&& BOUND_UPPER ≠ 0 ∧ v > e.valueUpper) →
      (e.update v BOUND_LOWER d m g).bound &&& BOUND_UPPER = e.bound &&& BOUND_UPPER ∧
      (e.update v BOUND_LOWER d m g).valueUpper = e.valueUpper ∧
      (e.update v BOUND_LOWER d m g).depthUpper = e.depthUpper) := by
  obtain ⟨k32, m16, bd, g8, vl, dl, vu, du⟩ := e
  simp only at hbound
  rcases lt_or_le vu v with hvu | hvu
  · interval_cases bd <;>
      simp [TTEntry.update, BOUND_UPPER, BOUND_LOWER, BOUND_EXACT,
        BOUND_NONE, hvu] <;> decide
  · interval_cases bd <;>
      simp [TTEntry.update, BOUND_UPPER, BOUND_LOWER, BOUND_EXACT,
        BOUND_NONE, not_lt.mpr hvu] <;> decide

/-- C1: for a record with a well-formed bound bitmask and in-range
arguments: any `update` whose bound includes UPPER overwrites the
(valueUpper, depthUpper) pair with `(v, d)` (symmetrically for LOWER); an
`update` with bound exactly UPPER clears the LOWER bit and resets its pair
to the sentinels exactly when the LOWER bit was set and the stored lower
value strictly exceeds the new upper value, and otherwise leaves the LOWER
bit and pair unchanged; symmetrically, an `update` with bound exactly LOWER
clears UPPER exactly when the new lower value strictly exceeds the stored
upper value, and otherwise preserves the UPPER bit and pair. -/
theorem c1_update_merge_invalidation (e : TTEntry) (v d : Int) (m g : Nat)
    (hbound : e.bound < 4) (hv : int16Range v) (hd : int16Range d) :
    (∀ b, b &&& BOUND_UPPER ≠ 0 →
      (e.update v b d m g).valueUpper = v ∧
      (e.update v b d m g).depthUpper = d) ∧
    (∀ b, b &&& BOUND_LOWER ≠ 0 →
      (e.update v b d m g).valueLower = v ∧
      (e.update v b d m g).depthLower = d) ∧
    (e.bound &&& BOUND_LOWER ≠ 0 ∧ v < e.valueLower →
      (e.update v BOUND_UPPER d m g).bound &&& BOUND_LOWER = 0 ∧
      (e.update v BOUND_UPPER d m g).valueLower = VALUE_NONE ∧
      (e.update v BOUND_UPPER d m g).depthLower = DEPTH_NONE) ∧
    (¬ (e.bound &&& BOUND_LOWER ≠ 0 ∧ v < e.valueLower) →
      (e.update v BOUND_UPPER d m g).bound &&& BOUND_LOWER = e.bound &&& BOUND_LOWER ∧
      (e.update v BOUND_UPPER d m g).valueLower = e.valueLower ∧
      (e.update v BOUND_UPPER d m g).depthLower = e.depthLower) ∧
    (e.bound &&& BOUND_UPPER ≠ 0 ∧ v > e.valueUpper →
      (e.update v BOUND_LOWER d m g).bound &&& BOUND_UPPER = 0 ∧
      (e.update v BOUND_LOWER d m g).valueUpper = VALUE_NONE ∧
      (e.update v BOUND_LOWER d m g).depthUpper = DEPTH_NONE) ∧
    (¬ (e.bound &&& BOUND_UPPER ≠ 0 ∧ v > e.valueUpper) →
      (e.update v BOUND_LOWER d m g).bound &&& BOUND_UPPER = e.bound &&& BOUND_UPPER ∧
      (e.update v BOUND_LOWER d m g).valueUpper = e.valueUpper ∧
      (e.update v BOUND_LOWER d m g).depthUpper = e.depthUpper) :=
  ⟨fun b hb => update_sets_upper_pair e v d b m g hv hd hb,
   fun b hb => update_sets_lower_pair e v d b m g hv hd hb,
   (update_upper_invalidates_lower e v d m g hbound).1,
   (update_upper_invalidates_lower e v d m g hbound).2,
   (update_lower_invalidates_upper e v d m g hbound).1,
   (update_lower_invalidates_upper e v d m g hbound).2⟩

/-- Witness for C1: a record holding EXACT with lower value 100 and upper
value 200, merged with in-range arguments. -/
theorem c1_update_merge_invalidation_witness :
    (TTEntry.mk 5 0 3 0 100 6 200 7).bound < 4 ∧ int16Range 150 ∧
    int16Range 9 ∧
    ((∀ b, b &&& BOUND_UPPER ≠ 0 →
       ((TTEntry.mk 5 0 3 0 100 6 200 7).update 150 b 9 11 12).valueUpper = 150 ∧
       ((TTEntry.mk 5 0 3 0 100 6 200 7).update 150 b 9 11 12).depthUpper = 9) ∧
     (∀ b, b &&& BOUND_LOWER ≠ 0 →
       ((TTEntry.mk 5 0 3 0 100 6 200 7).update 150 b 9 11 12).valueLower = 150 ∧
       ((TTEntry.mk 5 0 3 0 100 6 200 7).update 150 b 9 11 12).depthLower = 9) ∧
     ((TTEntry.mk 5 0 3 0 100 6 200 7).bound &&& BOUND_LOWER ≠ 0 ∧
         (150 : Int) < (TTEntry.mk 5 0 3 0 100 6 200 7).valueLower →
       ((TTEntry.mk 5 0 3 0 100 6 200 7).update 150 BOUND_UPPER 9 11 12).bound &&& BOUND_LOWER = 0 ∧
       ((TTEntry.mk 5 0 3 0 100 6 200 7).update 150 BOUND_UPPER 9 11 12).valueLower = VALUE_NONE ∧
       ((TTEntry.mk 5 0 3 0 100 6 200 7).update 150 BOUND_UPPER 9 11 12).depthLower = DEPTH_NONE) ∧
     (¬ ((TTEntry.mk 5 0 3 0 100 6 200 7).bound &&& BOUND_LOWER ≠ 0 ∧
         (150 : Int) < (TTEntry.mk 5 0 3 0 100 6 200 7).valueLower) →
       ((TTEntry.mk 5 0 3 0 100 6 200 7).update 150 BOUND_UPPER 9 11 12).bound &&& BOUND_LOWER =
         (TTEntry.mk 5 0 3 0 100 6 200 7).bound &&& BOUND_LOWER ∧
       ((TTEntry.mk 5 0 3 0 100 6 200 7).update 150 BOUND_UPPER 9 11 12).valueLower =
         (TTEntry.mk 5 0 3 0 100 6 200 7).valueLower ∧
       ((TTEntry.mk 5 0 3 0 100 6 200 7).update 150 BOUND_UPPER 9 11 12).depthLower =
         (TTEntry.mk 5 0 3 0 100 6 200 7).depthLower) ∧
     ((TTEntry.mk 5 0 3 0 100 6 200 7).bound &&& BOUND_UPPER ≠ 0 ∧
         (150 : Int) > (TTEntry.mk 5 0 3 0 100 6 200 7).valueUpper →
       ((TTEntry.mk 5 0 3 0 100 6 200 7).update 150 BOUND_LOWER 9 11 12).bound &&& BOUND_UPPER = 0 ∧
       ((TTEntry.mk 5 0 3 0 100 6 200 7).update 150 BOUND_LOWER 9 11 12).valueUpper = VALUE_NONE ∧
       ((TTEntry.mk 5 0 3 0 100 6 200 7).update 150 BOUND_LOWER 9 11 12).depthUpper = DEPTH_NONE) ∧
     (¬ ((TTEntry.mk 5 0 3 0 100 6 200 7).bound &&& BOUND_UPPER ≠ 0 ∧
         (150 : Int) > (TTEntry.mk 5 0 3 0 100 6 200 7).valueUpper) →
       ((TTEntry.mk 5 0 3 0 100 6 200 7).update 150 BOUND_LOWER 9 11 12).bound &&& BOUND_UPPER =
         (TTEntry.mk 5 0 3 0 100 6 200 7).bound &&& BOUND_UPPER ∧
       ((TTEntry.mk 5 0 3 0 100 6 200 7).update 150 BOUND_LOWER 9 11 12).valueUpper =
         (TTEntry.mk 5 0 3 0 100 6 200 7).valueUpper ∧
       ((TTEntry.mk 5 0 3 0 100 6 200 7).update 150 BOUND_LOWER 9 11 12).depthUpper =
         (TTEntry.mk 5 0 3 0 100 6 200 7).depthUpper)) :=
  ⟨by decide, by decide, by decide,
    c1_update_merge_invalidation (TTEntry.mk 5 0 3 0 100 6 200 7) 150 9 11 12
      (by decide) (by decide) (by decide)⟩

/-! ## C3: the sentinel invariant -/

/-- The record invariant of the data model: a value/depth pair is meaningful
only when its bound bit is set — with the bit clear, the pair holds the
sentinel none values. -/
def EntryInv (e : TTEntry) : Prop :=
  (e.bound &&& BOUND_UPPER = 0 →
    e.valueUpper = VALUE_NONE ∧ e.depthUpper = DEPTH_NONE) ∧
  (e.bound &&& BOUND_LOWER = 0 →
    e.valueLower = VALUE_NONE ∧ e.depthLower = DEPTH_NONE)

instance : DecidablePred EntryInv := fun e => by
  unfold EntryInv; infer_instance

theorem save_bound_lt_four {k : Nat} {v : Int} {b : Nat} {d : Int}
    {m g : Nat} (hb : b < 4) : (TTEntry.save k v b d m g).bound < 4 := by
  simp only [TTEntry.save]
  omega

theorem save_inv (k : Nat) (v : Int) (b : Nat) (d : Int) (m g : Nat)
    (hb : b < 4) : EntryInv (TTEntry.save k v b d m g) := by
  interval_cases b <;>
    simp [EntryInv, TTEntry.save, BOUND_UPPER, BOUND_LOWER]

theorem update_inv (e : TTEntry) (v : Int) (b : Nat) (d : Int) (m g : Nat)
    (hb : b < 4) (hbe : e.bound < 4) (hi : EntryInv e) :
    EntryInv (e.update v b d m g) ∧ (e.update v b d m g).bound < 4 := by
  obtain ⟨k32, m16, bd, g8, vl, dl, vu, du⟩ := e
  simp only at hbe
  unfold EntryInv at hi ⊢
  simp only at hi
  rcases lt_or_le v vl with hvl | hvl <;>
    rcases lt_or_le vu v with hvu | hvu <;>
      rcases lt_or_le (toInt16 v) v with htv | htv
  · interval_cases b <;> interval_cases bd <;>
      simp [TTEntry.update, BOUND_UPPER, BOUND_LOWER, BOUND_EXACT,
        BOUND_NONE, hvl, hvu, htv, hi.1, hi.2]
  · interval_cases b <;> interval_cases bd <;>
      simp [TTEntry.update, BOUND_UPPER, BOUND_LOWER, BOUND_EXACT,
        BOUND_NONE, hvl, hvu, not_lt.mpr htv, hi.1, hi.2]
  · interval_cases b <;> interval_cases bd <;>
      simp [TTEntry.update, BOUND_UPPER, BOUND_LOWER, BOUND_EXACT,
        BOUND_NONE, hvl, not_lt.mpr hvu, htv, hi.1, hi.2]
  · interval_cases b <;> interval_cases bd <;>
      simp [TTEntry.update, BOUND_UPPER, BOUND_LOWER, BOUND_EXACT,
        BOUND_NONE, hvl, not_lt.mpr hvu, not_lt.mpr htv, hi.1, hi.2]
  · interval_cases b <;> interval_cases bd <;>
      simp [TTEntry.update, BOUND_UPPER, BOUND_LOWER, BOUND_EXACT,
        BOUND_NONE, not_lt.mpr hvl, hvu, htv, hi.1, hi.2]
  · interval_cases b <;> interval_cases bd <;>
      simp [TTEntry.update, BOUND_UPPER, BOUND_LOWER, BOUND_EXACT,
        BOUND_NONE, not_lt.mpr hvl, hvu, not_lt.mpr htv, hi.1, hi.2]
  · interval_cases b <;> interval_cases bd <;>
      simp [TTEntry.update, BOUND_UPPER, BOUND_LOWER, BOUND_EXACT,
        BOUND_NONE, not_lt.mpr hvl, not_lt.mpr hvu, htv, hi.1, hi.2]
  · interval_cases b <;> interval_cases bd <;>
      simp [TTEntry.update, BOUND_UPPER, BOUND_LOWER, BOUND_EXACT,
        BOUND_NONE, not_lt.mpr hvl, not_lt.mpr hvu, not_lt.mpr htv, hi.1, hi.2]

/-- One record operation: an `initialize` (`save`) or a `merge`
(`update`), with its arguments. -/
inductive TTOp where
  | saveOp : Nat → Int → Nat → Int → Nat → Nat → TTOp
  | updateOp : Int → Nat → Int → Nat → Nat → TTOp

/-- Apply one operation to a record. -/
def TTOp.apply (e : TTEntry) : TTOp → TTEntry
  | .saveOp k v b d m g => TTEntry.save k v b d m g
  | .updateOp v b d m g => e.update v b d m g

/-- The `Bound` argument carried by an operation; the C++ `Bound` type has
only the four values `NONE`, `UPPER`, `LOWER`, `EXACT`, i.e. it is < 4. -/
def TTOp.boundArg : TTOp → Nat
  | .saveOp _ _ b _ _ _ => b
  | .updateOp _ b _ _ _ => b

theorem foldl_inv (ops : List TTOp) (e : TTEntry) (he : e.bound < 4)
    (hi : EntryInv e) (hops : ∀ op ∈ ops, op.boundArg < 4) :
    EntryInv (ops.foldl TTOp.apply e) ∧ (ops.foldl TTOp.apply e).bound < 4 := by
  induction ops generalizing e with
  | nil => exact ⟨hi, he⟩
  | cons op rest ih =>
    have hop := hops op (List.mem_cons_self op rest)
    have hrest : ∀ op2 ∈ rest, TTOp.boundArg op2 < 4 := fun op2 h2 =>
      hops op2 (List.mem_cons_of_mem _ h2)
    cases op with
    | saveOp k v b d m g =>
      exact ih (TTEntry.save k v b d m g) (save_bound_lt_four hop)
        (save_inv k v b d m g hop) hrest
    | updateOp v b d m g =>
      obtain ⟨h1, h2⟩ := update_inv e v b d m g hop he hi
      exact ih (e.update v b d m g) h2 h1 hrest

/-- C3: the sentinel invariant — a clear bound bit implies the sentinel pair
— is established by `save` (for any `Bound` argument), preserved by every
`update` on any record satisfying it, and therefore holds after every
sequence of `save`/`update` operations that starts with a `save`. -/
theorem c3_sentinel_invariant (k : Nat) (v : Int) (b : Nat) (d : Int)
    (m g : Nat) (hb : b < 4) (ops : List TTOp)
    (hops : ∀ op ∈ ops, op.boundArg < 4) :
    EntryInv (TTEntry.save k v b d m g) ∧
    (∀ (e : TTEntry) (v2 : Int) (b2 : Nat) (d2 : Int) (m2 g2 : Nat),
      e.bound < 4 → b2 < 4 → EntryInv e → EntryInv (e.update v2 b2 d2 m2 g2)) ∧
    EntryInv (ops.foldl TTOp.apply (TTEntry.save k v b d m g)) :=
  ⟨save_inv k v b d m g hb,
   fun e v2 b2 d2 m2 g2 he hb2 hi => (update_inv e v2 b2 d2 m2 g2 hb2 he hi).1,
   (foldl_inv ops (TTEntry.save k v b d m g) (save_bound_lt_four hb)
     (save_inv k v b d m g hb) hops).1⟩

/-- Witness for C3: a save followed by two merges, one of which invalidates
the stored lower bound. -/
theorem c3_sentinel_invariant_witness :
    (2 : Nat) < 4 ∧
    (∀ op ∈ [TTOp.updateOp 30 1 8 5 2, TTOp.updateOp (-100) 2 3 4 5],
      op.boundArg < 4) ∧
    (EntryInv (TTEntry.save 77 50 2 10 1 1) ∧
     (∀ (e : TTEntry) (v2 : Int) (b2 : Nat) (d2 : Int) (m2 g2 : Nat),
       e.bound < 4 → b2 < 4 → EntryInv e → EntryInv (e.update v2 b2 d2 m2 g2)) ∧
     EntryInv ([TTOp.updateOp 30 1 8 5 2, TTOp.updateOp (-100) 2 3 4 5].foldl
       TTOp.apply (TTEntry.save 77 50 2 10 1 1))) :=
  ⟨by decide, by decide,
    c3_sentinel_invariant 77 50 2 10 1 1 (by decide)
      [TTOp.updateOp 30 1 8 5 2, TTOp.updateOp (-100) 2 3 4 5] (by decide)⟩

/-! ## C8: store priority and eviction -/

theorem victimIdx_lt (cur : Nat) (cluster : List TTEntry)
    (hne : cluster ≠ []) : victimIdx cur cluster < cluster.length := by
  unfold victimIdx
  have hlen : cluster.length ≠ 0 := fun h => hne (List.length_eq_zero.mp h)
  cases harg : (List.range cluster.length).argmax
      (fun i => evictScore cur (cluster.getD i TTEntry.zeroed)) with
  | none =>
    rw [List.argmax_eq_none, List.range_eq_nil] at harg
    exact absurd harg hlen
  | some j =>
    have hj : j ∈ List.range cluster.length :=
      List.argmax_mem (Option.mem_def.mpr harg)
    simpa using List.mem_range.mp hj

theorem victimIdx_max (cur : Nat) (cluster : List TTEntry) (i : Nat)
    (hi : i < cluster.length) :
    evictScore cur (cluster.getD i TTEntry.zeroed) ≤
      evictScore cur (cluster.getD (victimIdx cur cluster) TTEntry.zeroed) := by
  unfold victimIdx
  cases harg : (List.range cluster.length).argmax
      (fun i => evictScore cur (cluster.getD i TTEntry.zeroed)) with
  | none =>
    rw [List.argmax_eq_none, List.range_eq_nil] at harg
    omega
  | some j =>
    simpa using List.le_of_mem_argmax (List.mem_range.mpr hi)
      (Option.mem_def.mpr harg)

theorem genDistance_inj {cur g1 g2 : Nat} (h1 : g1 < 2 ^ 8) (h2 : g2 < 2 ^ 8)
    (h : genDistance cur g1 = genDistance cur g2) : g1 = g2 := by
  unfold genDistance at h
  omega

theorem victimIdx_strict (cur : Nat) (cluster : List TTEntry)
    (hgen : ∀ e2 ∈ cluster, e2.generation8 < 2 ^ 8)
    (hdist : cluster.Pairwise (fun e1 e2 =>
      (e1.generation8, e1.depthLower) ≠ (e2.generation8, e2.depthLower)))
    (i : Nat) (hi : i < cluster.length) (hnv : i ≠ victimIdx cur cluster) :
    evictScore cur (cluster.getD i TTEntry.zeroed) <
      evictScore cur (cluster.getD (victimIdx cur cluster) TTEntry.zeroed) := by
  have hne : cluster ≠ [] := by
    intro h
    rw [h] at hi
    simp at hi
  have hvlt := victimIdx_lt cur cluster hne
  rcases lt_or_eq_of_le (victimIdx_max cur cluster i hi) with hlt | heq
  · exact hlt
  · exfalso
    unfold evictScore at heq
    rw [List.getD_eq_getElem cluster TTEntry.zeroed hi,
      List.getD_eq_getElem cluster TTEntry.zeroed hvlt] at heq
    have hpair := toLex_inj.mp heq
    have hgd : genDistance cur cluster[i].generation8 =
        genDistance cur cluster[victimIdx cur cluster].generation8 :=
      congrArg Prod.fst hpair
    have hdl : cluster[i].depthLower =
        cluster[victimIdx cur cluster].depthLower := by
      have := congrArg Prod.snd hpair
      simp only at this
      omega
    have hg : cluster[i].generation8 =
        cluster[victimIdx cur cluster].generation8 :=
      genDistance_inj (hgen _ (List.getElem_mem hi))
        (hgen _ (List.getElem_mem hvlt)) hgd
    rw [List.pairwise_iff_getElem] at hdist
    rcases Nat.lt_or_ge i (victimIdx cur cluster) with hij | hij
    · exact hdist i (victimIdx cur cluster) hi hvlt hij (by rw [hg, hdl])
    · exact hdist (victimIdx cur cluster) i hvlt hi
        (Nat.lt_of_le_of_ne hij (Ne.symm hnv)) (by rw [hg, hdl])

/-- C8: `store` on a cluster follows the spec's priority. (a) If some record
fingerprint-matches the key (low 32 bits), the first such record is merged
in place via `update` — never evicted, and all other records are untouched.
(b) Otherwise, if some record is the never-used zero sentinel, the first
such record is initialized via `save`. (c) Otherwise the record with the
highest eviction score (generation distance dominant, ties by lowest depth)
is overwritten via `save`; it attains the maximal score, and when the
records carry 8-bit generations and pairwise-distinct (generation, depth)
pairs it is the unique maximum. -/
theorem c8_store_priority (cur : Nat) (cluster : List TTEntry) (posKey : Nat)
    (v : Int) (b : Nat) (d : Int) (m : Nat) :
    (∀ j, j < cluster.length →
      (cluster.getD j TTEntry.zeroed).key32 = posKey % 2 ^ 32 →
      (∀ i, i < j → (cluster.getD i TTEntry.zeroed).key32 ≠ posKey % 2 ^ 32) →
      storeCluster cur cluster posKey v b d m =
        cluster.set j ((cluster.getD j TTEntry.zeroed).update v b d m cur)) ∧
    ((∀ e2 ∈ cluster, e2.key32 ≠ posKey % 2 ^ 32) →
      ∀ j, j < cluster.length →
      (cluster.getD j TTEntry.zeroed).key32 = 0 →
      (∀ i, i < j → (cluster.getD i TTEntry.zeroed).key32 ≠ 0) →
      storeCluster cur cluster posKey v b d m =
        cluster.set j (TTEntry.save (posKey % 2 ^ 32) v b d m cur)) ∧
    ((∀ e2 ∈ cluster, e2.key32 ≠ posKey % 2 ^ 32) →
      (∀ e2 ∈ cluster, e2.key32 ≠ 0) →
      cluster ≠ [] →
      victimIdx cur cluster < cluster.length ∧
      storeCluster cur cluster posKey v b d m =
        cluster.set (victimIdx cur cluster)
          (TTEntry.save (posKey % 2 ^ 32) v b d m cur) ∧
      (∀ i, i < cluster.length →
        evictScore cur (cluster.getD i TTEntry.zeroed) ≤
          evictScore cur (cluster.getD (victimIdx cur cluster) TTEntry.zeroed)) ∧
      ((∀ e2 ∈ cluster, e2.generation8 < 2 ^ 8) →
       cluster.Pairwise (fun e1 e2 =>
         (e1.generation8, e1.depthLower) ≠ (e2.generation8, e2.depthLower)) →
       ∀ i, i < cluster.length → i ≠ victimIdx cur cluster →
         evictScore cur (cluster.getD i TTEntry.zeroed) <
           evictScore cur (cluster.getD (victimIdx cur cluster) TTEntry.zeroed))) := by
  refine ⟨?_, ?_, ?_⟩
  · intro j hj hkey hfirst
    have hfind : cluster.findIdx? (fun e2 => e2.key32 == posKey % 2 ^ 32) =
        some j := by
      rw [List.findIdx?_eq_some_iff_getElem]
      refine ⟨hj, ?_, ?_⟩
      · simp only [beq_iff_eq]
        rw [← List.getD_eq_getElem cluster TTEntry.zeroed hj]
        exact hkey
      · intro i hij
        have h2 := hfirst i hij
        rw [List.getD_eq_getElem cluster TTEntry.zeroed
          (Nat.lt_trans hij hj)] at h2
        simpa using h2
    simp only [storeCluster]
    simp only [hfind]
  · intro hnomatch j hj hkey hfirst
    have hnone : cluster.findIdx? (fun e2 => e2.key32 == posKey % 2 ^ 32) =
        none := by
      rw [List.findIdx?_eq_none_iff]
      intro x hx
      simpa using hnomatch x hx
    have hfind : cluster.findIdx? (fun e2 => e2.key32 == 0) = some j := by
      rw [List.findIdx?_eq_some_iff_getElem]
      refine ⟨hj, ?_, ?_⟩
      · simp only [beq_iff_eq]
        rw [← List.getD_eq_getElem cluster TTEntry.zeroed hj]
        exact hkey
      · intro i hij
        have h2 := hfirst i hij
        rw [List.getD_eq_getElem cluster TTEntry.zeroed
          (Nat.lt_trans hij hj)] at h2
        simpa using h2
    simp only [storeCluster]
    simp only [hnone, hfind]
  · intro hnomatch hnozero hne
    have hnone1 : cluster.findIdx? (fun e2 => e2.key32 == posKey % 2 ^ 32) =
        none := by
      rw [List.findIdx?_eq_none_iff]
      intro x hx
      simpa using hnomatch x hx
    have hnone2 : cluster.findIdx? (fun e2 => e2.key32 == 0) = none := by
      rw [List.findIdx?_eq_none_iff]
      intro x hx
      simpa using hnozero x hx
    refine ⟨victimIdx_lt cur cluster hne, ?_, ?_, ?_⟩
    · simp only [storeCluster]
      simp only [hnone1, hnone2]
    · intro i hi
      exact victimIdx_max cur cluster i hi
    · intro hgen hdist i hi hnv
      exact victimIdx_strict cur cluster hgen hdist i hi hnv

/-- A concrete full cluster for the C8 witness: three used records with
distinct (generation, depth) pairs, none matching key 99 and none empty. -/
def witnessCluster : List TTEntry :=
  [⟨10, 0, 1, 5, 0, 4, 0, 0⟩, ⟨11, 0, 1, 3, 0, 9, 0, 0⟩,
   ⟨12, 0, 1, 5, 0, 7, 0, 0⟩]

/-- Witness for C8, exercising the eviction branch on `witnessCluster` at
current generation 5: the unmatched store overwrites the unique
highest-scoring record. -/
theorem c8_store_priority_witness :
    (∀ e2 ∈ witnessCluster, e2.key32 ≠ 99 % 2 ^ 32) ∧
    (∀ e2 ∈ witnessCluster, e2.key32 ≠ 0) ∧
    witnessCluster ≠ [] ∧
    (victimIdx 5 witnessCluster < witnessCluster.length ∧
     storeCluster 5 witnessCluster 99 50 1 8 7 =
       witnessCluster.set (victimIdx 5 witnessCluster)
         (TTEntry.save (99 % 2 ^ 32) 50 1 8 7 5) ∧
     (∀ i, i < witnessCluster.length →
       evictScore 5 (witnessCluster.getD i TTEntry.zeroed) ≤
         evictScore 5 (witnessCluster.getD (victimIdx 5 witnessCluster)
           TTEntry.zeroed)) ∧
     ((∀ e2 ∈ witnessCluster, e2.generation8 < 2 ^ 8) →
      witnessCluster.Pairwise (fun e1 e2 =>
        (e1.generation8, e1.depthLower) ≠ (e2.generation8, e2.depthLower)) →
      ∀ i, i < witnessCluster.length → i ≠ victimIdx 5 witnessCluster →
        evictScore 5 (witnessCluster.getD i TTEntry.zeroed) <
          evictScore 5 (witnessCluster.getD (victimIdx 5 witnessCluster)
            TTEntry.zeroed))) :=
  ⟨by decide, by decide, by decide,
    (c8_store_priority 5 witnessCluster 99 50 1 8 7).2.2 (by decide)
      (by decide) (by decide)⟩
